import Mathlib

/-!
Verification of the rag-chatbot-go provider-orchestration core.

Strings are modelled as `List Char` (`Str`); the Go sources treat all the
strings relevant here as ASCII, where Go's byte-based `len`/slicing agrees
with character counting.  Network calls, `rand` draws and the wall clock are
modelled as an explicit environment record (`Env`) holding the outcome of
each external interaction performed by one call; `time.Time` fields are
dropped.  Methods with pointer receivers are modelled as functions that take
the receiver state and return the updated state.
-/

set_option maxRecDepth 100000

/-- Strings as character lists. -/
abbrev Str := List Char

/-! ## Go string primitives (`strings` package subset used by the sources) -/

/-- Whitespace predicate of Go `unicode.IsSpace`, restricted to ASCII:
space, tab, newline, vertical tab, form feed, carriage return. -/
def goIsSpace (c : Char) : Bool :=
  c = ' ' || c = '\t' || c = '\n' || c = Char.ofNat 11 || c = Char.ofNat 12 || c = '\r'

/-- Go `strings.TrimLeft`-style trim by a predicate. -/
def trimLeftP (p : Char → Bool) (s : Str) : Str := s.dropWhile p

/-- Go `strings.TrimRight`-style trim by a predicate. -/
def trimRightP (p : Char → Bool) (s : Str) : Str := (s.reverse.dropWhile p).reverse

/-- Go `strings.TrimSpace`. -/
def trimSpace (s : Str) : Str := trimRightP goIsSpace (trimLeftP goIsSpace s)

/-- Go `strings.TrimRight(s, cutset)`: drop trailing characters in `cutset`. -/
def trimRightCutset (cutset : Str) (s : Str) : Str := trimRightP (fun c => cutset.contains c) s

/-- Go `strings.Index(s, pat)`: index of the first occurrence of `pat` in `s`,
`none` when absent (Go returns -1). -/
def findSub (pat : Str) : Str → Option Nat
  | [] => if pat = [] then some 0 else none
  | c :: t => if pat.isPrefixOf (c :: t) then some 0 else (findSub pat t).map (· + 1)

/-- Go `strings.Contains(s, pat)`. -/
def containsStr (s pat : Str) : Bool := (findSub pat s).isSome

/-- One iteration of the stop-pattern loop body in `cleanResponse`:
`if idx := strings.Index(response, pattern); idx != -1 { response = response[:idx] }`. -/
def cutPattern (s : Str) (pat : Str) : Str :=
  match findSub pat s with
  | some i => s.take i
  | none => s

/-- Go `strings.Split(s, ". ")`, specialised to the two-character separator
used by `cleanResponse` (non-overlapping, leftmost-first, like Go). -/
def splitDotSpace : Str → List Str
  | [] => [[]]
  | '.' :: ' ' :: rest => [] :: splitDotSpace rest
  | c :: rest =>
    match splitDotSpace rest with
    | [] => [[c]]
    | g :: gs => (c :: g) :: gs

/-- Go `strings.Join(parts, ". ")`. -/
def joinDotSpace (parts : List Str) : Str := List.intercalate ['.', ' '] parts

/-- Go `strings.ToLower`, ASCII. -/
def toLowerStr (s : Str) : Str := s.map Char.toLower

/-! ## `src/services/llm.go`: `cleanResponse` -/

/-- Stop patterns of `cleanResponse` (llm.go lines 118-126), in source order. -/
def stopPatterns : List Str :=
  [('\n' :: '\n' :: "Human:".toList),
   ('\n' :: "Human:".toList),
   ('\n' :: '\n' :: "User:".toList),
   ('\n' :: "User:".toList),
   ('\n' :: '\n' :: "Q:".toList),
   ('\n' :: "Q:".toList),
   ('\n' :: '\n' :: "Question:".toList)]

/-- Trailing-punctuation cutset of `cleanResponse` (llm.go line 135). -/
def punctCutset : Str := ['.', ',', '!', '?', ';', ':']

/-- The intermediate value of `cleanResponse` just before the length cap
(llm.go lines 115-136): trim whitespace, cut at each stop pattern in order,
trim trailing punctuation, trim whitespace again. -/
def cleanMid (response : Str) : Str :=
  trimSpace (trimRightCutset punctCutset (stopPatterns.foldl cutPattern (trimSpace response)))

/-- `LLMService.cleanResponse` (llm.go lines 113-151). -/
def cleanResponse (response : Str) : Str :=
  let response := cleanMid response
  if 300 < response.length then
    let sentences := splitDotSpace response
    if 2 < sentences.length then
      joinDotSpace (sentences.take 2) ++ ['.']
    else
      response.take 297 ++ ['.', '.', '.']
  else
    response

/-! ## Data model (`src/models`, `src/services/chatbot.go`) -/

/-- `LLMProvider` (chatbot.go lines 15-21).  The Go type is a string; the code
only ever compares it against the three constants, so the embedding uses an
inductive with those three values.  "Auto mode" is any preferred provider other
than `chatgpt`/`local`; the value `dummy` stands for it below. -/
inductive LLMProvider where
  | «local» : LLMProvider
  | chatgpt : LLMProvider
  | dummy : LLMProvider
deriving DecidableEq, Repr

/-- `models.ChatMessage` (chat_models.go lines 25-29); the timestamp is dropped. -/
structure ChatMessage where
  role : Str
  content : Str
deriving DecidableEq, Repr

/-- `models.ChatResponse` (chat_models.go lines 32-40); the timestamp is dropped. -/
structure ChatResponse where
  message : Str
  sessionID : Str
  context : List Str
  sources : List Str
  status : Str
deriving DecidableEq, Repr

/-- `models.RAGDocument` fields read by `generateContextWithHistory`
(content and source path); id, score and metadata are not consulted there. -/
structure RAGDocument where
  content : Str
  source : Str
deriving DecidableEq, Repr

/-- `models.DiscordMessage` (discord_models.go lines 6-13); the timestamp is dropped. -/
structure DiscordMessage where
  id : Str
  channelID : Str
  content : Str
  author : Str
  isBot : Bool
deriving DecidableEq, Repr

/-- `services.Chatbot` state (chatbot.go lines 24-35).  `llmInit` and
`chatgptInit` model `llmService != nil` / `chatgptService != nil`;
`chatgptKeySet` models the ChatGPT service's `apiKey != ""` (its
`IsAvailable`, chatgpt.go line 256).  The time fields and the RAG service
handle are dropped; the availability cache (a Go map with default `false`
for absent keys) is a total function. -/
structure Chatbot where
  initialized : Bool
  llmInit : Bool
  chatgptInit : Bool
  chatgptKeySet : Bool
  currentProvider : LLMProvider
  preferredProvider : LLMProvider
  providerCheckCache : LLMProvider → Bool
  enableRAG : Bool

/-- Outcomes of the external interactions (network calls and `rand` draws)
that a single call into the chatbot may perform.  `localGenRaw` is the raw
text of a successful Ollama generate exchange (`none` = any transport/status/
decode/error-field failure, llm.go lines 84-104); `chatgptGen` is the result
of `ChatGPTService.GenerateResponse` (`none` = failure); `localAvail` is the
outcome of the Ollama reachability probe (llm.go lines 199-207); `ragDocs`
is the outcome of `ragService.Query` (`none` = error). -/
structure Env where
  localGenRaw : Option Str
  chatgptGen : Option Str
  localAvail : Bool
  ragDocs : Option (List RAGDocument)
  randGreet : Fin 3
  randCtxEmpty : Bool
  randCtxNum : Fin 2
  randSrcEmpty : Bool
  randSrcNum : Fin 2

/-- String form of a provider (Go `string(c.currentProvider)`). -/
def providerStr : LLMProvider → Str
  | LLMProvider.«local» => "local".toList
  | LLMProvider.chatgpt => "chatgpt".toList
  | LLMProvider.dummy => "dummy".toList

/-! ## `src/services/chatbot.go`: response generation -/

/-- Greeting templates of `generateDummyResponse` (chatbot.go lines 225-229). -/
def greetings : List Str :=
  ["Hello! I'm your RAG chatbot. I can use local LLM or ChatGPT when available!".toList,
   "Hi there! I'm powered by AI when possible, with smart fallbacks.".toList,
   "Hey! I'm in Phase 3+ development - now with multiple LLM providers!".toList]

/-- Condition of the greeting branch (chatbot.go line 224), on the lowered message. -/
def isGreetingMsg (m : Str) : Bool :=
  containsStr m ("hello".toList) || containsStr m ("hi".toList) || containsStr m ("hey".toList)

/-- `Chatbot.generateDummyResponse` (chatbot.go lines 220-255).  The
`historyLength` parameter is passed by the callers (as `len(history)`) but is
never read by the body, exactly as in the source.  The greeting branch indexes
the template list by the `rand.Intn(3)` draw from the environment. -/
def generateDummyResponse (c : Chatbot) (env : Env) (message : Str) (historyLength : Nat) : Str :=
  let m := toLowerStr message
  if isGreetingMsg m then
    greetings.get (Fin.mk env.randGreet.val env.randGreet.isLt)
  else if containsStr m ("llm".toList) || containsStr m ("model".toList) || containsStr m ("ai".toList) then
    "I can use multiple AI providers: Local LLM (Ollama), ChatGPT, or smart dummy responses. Currently using: ".toList
      ++ providerStr c.currentProvider
  else if containsStr m ("chatgpt".toList) || containsStr m ("openai".toList) then
    if c.chatgptInit && c.chatgptKeySet then
      "ChatGPT is available! I can use it for high-quality responses via the OpenAI API.".toList
    else
      "ChatGPT is not configured (missing OPENAI_API_KEY) or not initialized in this mode.".toList
  else if containsStr m ("document".toList) || containsStr m ("file".toList) || containsStr m ("search".toList) then
    "I'm designed for document search and RAG! Right now I'm using dummy context, but I'll soon be able to search through your actual documents and use that information with my AI.".toList
  else if containsStr m ("rag".toList) || containsStr m ("retrieval".toList) then
    "RAG (Retrieval-Augmented Generation) is my specialty! I combine document search with AI generation. Currently using simulated retrieval, but real document processing is coming in Phase 4!".toList
  else
    "I received: \"".toList ++ m ++ "\". Currently using ".toList ++ providerStr c.currentProvider
      ++ " provider. I support local LLM, ChatGPT, and smart fallbacks!".toList

/-- Context templates of `generateDummyContext` (chatbot.go lines 259-263). -/
def dummyContexts : List Str :=
  ["[Dummy Context] This would normally be a relevant snippet from your documents...".toList,
   "[Mock Context] In the future, this will contain actual text from files that match your query.".toList,
   "[Placeholder Context] Document processing will extract relevant passages here.".toList]

/-- `Chatbot.generateDummyContext` (chatbot.go lines 258-277).  `randCtxEmpty`
is the `rand.Float64() < 0.3` draw, `randCtxNum` the `rand.Intn(2)` draw.
The message parameter is unused by the body, as in the source. -/
def generateDummyContext (env : Env) (message : Str) : List Str :=
  if env.randCtxEmpty then []
  else
    let numContexts := env.randCtxNum.val + 1
    let numContexts := if dummyContexts.length < numContexts then dummyContexts.length else numContexts
    dummyContexts.take numContexts

/-- Source-name templates of `generateDummySources` (chatbot.go lines 281-286). -/
def dummySources : List Str :=
  ["dummy-document-1.txt".toList,
   "sample-file.md".toList,
   "mock-content.pdf".toList,
   "placeholder-doc.txt".toList]

/-- `Chatbot.generateDummySources` (chatbot.go lines 280-300). -/
def generateDummySources (env : Env) : List Str :=
  if env.randSrcEmpty then []
  else
    let numSources := env.randSrcNum.val + 1
    let numSources := if dummySources.length < numSources then dummySources.length else numSources
    dummySources.take numSources

/-- Go `filepath.Base` for slash-separated paths: empty path gives ".",
trailing slashes are dropped, all-slash paths give "/", otherwise the last
path component. -/
def filepathBase (p : Str) : Str :=
  if p = [] then ['.']
  else
    let q := trimRightP (fun c => c = '/') p
    if q = [] then ['/']
    else (q.reverse.takeWhile (fun c => c ≠ '/')).reverse

/-- `Chatbot.generateContextWithHistory` (chatbot.go lines 367-408).  The
channel-id extraction from the session id only feeds the RAG query, whose
outcome is the `ragDocs` oracle, so it does not reappear here. -/
def generateContextWithHistory (c : Chatbot) (env : Env) (message sessionID : Str)
    (history : List ChatMessage) : List Str :=
  let ragCtx : List Str :=
    if c.enableRAG then
      match env.ragDocs with
      | some docs =>
        if 0 < docs.length then
          docs.map (fun d => "[Document: ".toList ++ filepathBase d.source ++ "] ".toList ++ d.content)
        else []
      | none => []
    else []
  let ctx :=
    if 0 < history.length then
      ragCtx ++ ("[Recent Channel Messages]".toList :: history.map (fun msg => msg.content))
    else ragCtx
  if ctx.length = 0 then ctx ++ generateDummyContext env message else ctx

/-- `LLMService.GenerateResponse` outcome (llm.go lines 58-110): on a
successful exchange the service returns the raw payload passed through
`cleanResponse`. -/
def llmGenerate (env : Env) : Option Str := env.localGenRaw.map cleanResponse

/-- `ChatGPTService.GenerateResponse` outcome (chatgpt.go lines 97-180): an
eager failure when no API key is set, otherwise the oracle's result. -/
def chatgptGenerate (c : Chatbot) (env : Env) : Option Str :=
  if c.chatgptKeySet then env.chatgptGen else none

/-- `Chatbot.generateResponse` (chatbot.go lines 177-217).  On a generate
failure the forced-mode branch returns the dummy response directly (lines
191-194 / 208-211); in any other mode control falls out of the switch to the
final dummy return (line 216).  Both paths produce the same value. -/
def generateResponse (c : Chatbot) (env : Env) (message : Str) (context : List Str)
    (history : List ChatMessage) : Str × LLMProvider :=
  match c.currentProvider with
  | LLMProvider.chatgpt =>
    if c.chatgptInit = false then
      (generateDummyResponse c env message history.length, LLMProvider.dummy)
    else
      match chatgptGenerate c env with
      | some response => (response, LLMProvider.chatgpt)
      | none =>
        if c.preferredProvider = LLMProvider.chatgpt then
          (generateDummyResponse c env message history.length, LLMProvider.dummy)
        else
          (generateDummyResponse c env message history.length, LLMProvider.dummy)
  | LLMProvider.«local» =>
    if c.llmInit = false then
      (generateDummyResponse c env message history.length, LLMProvider.dummy)
    else
      match llmGenerate env with
      | some response => (response, LLMProvider.«local»)
      | none =>
        if c.preferredProvider = LLMProvider.«local» then
          (generateDummyResponse c env message history.length, LLMProvider.dummy)
        else
          (generateDummyResponse c env message history.length, LLMProvider.dummy)
  | LLMProvider.dummy =>
    (generateDummyResponse c env message history.length, LLMProvider.dummy)

/-- `Chatbot.ProcessMessage` (chatbot.go lines 149-174), with the untouched
receiver state returned alongside the response (the body only reads `c`). -/
def ProcessMessage (c : Chatbot) (env : Env) (message sessionID : Str)
    (history : List ChatMessage) : ChatResponse × Chatbot :=
  let message := trimSpace message
  let context := generateContextWithHistory c env message sessionID history
  let response := (generateResponse c env message context history).1
  let sources := generateDummySources env
  ({ message := response
     sessionID := sessionID
     context := context
     sources := sources
     status := "success".toList }, c)

/-! ## `src/services/chatbot.go`: provider refresh -/

/-- Pointwise update of the availability cache (Go map assignment). -/
def updateCache (f : LLMProvider → Bool) (k : LLMProvider) (v : Bool) : LLMProvider → Bool :=
  fun p => if p = k then v else f p

/-- The provider-switch decision of `refreshProviderStatus` (chatbot.go lines
512-519): switch only when the current provider is down and the other is up. -/
def refreshedCurrent (c : Chatbot) (localAvailable chatgptAvailable : Bool) : LLMProvider :=
  if c.currentProvider = LLMProvider.«local» ∧ localAvailable = false ∧ chatgptAvailable = true then
    LLMProvider.chatgpt
  else if c.currentProvider = LLMProvider.chatgpt ∧ chatgptAvailable = false ∧ localAvailable = true then
    LLMProvider.«local»
  else c.currentProvider

/-- `Chatbot.refreshProviderStatus` (chatbot.go lines 491-520).  ChatGPT
availability is its `apiKey != ""` check; local availability is the network
probe outcome from the environment. -/
def refreshProviderStatus (c : Chatbot) (env : Env) : Chatbot :=
  if c.preferredProvider = LLMProvider.chatgpt ∨ c.preferredProvider = LLMProvider.«local» then c
  else
    let localAvailable := if c.llmInit then env.localAvail else false
    let chatgptAvailable := if c.chatgptInit then c.chatgptKeySet else false
    let cache1 := if c.llmInit then updateCache c.providerCheckCache LLMProvider.«local» localAvailable
                  else c.providerCheckCache
    let cache2 := if c.chatgptInit then updateCache cache1 LLMProvider.chatgpt chatgptAvailable
                  else cache1
    { c with providerCheckCache := cache2,
             currentProvider := refreshedCurrent c localAvailable chatgptAvailable }

/-- `Chatbot.RefreshProviders` (chatbot.go lines 563-591).  In auto mode it
re-evaluates the current provider from scratch, preferring local; it does not
write the availability cache. -/
def RefreshProviders (c : Chatbot) (env : Env) : Chatbot :=
  if c.preferredProvider = LLMProvider.chatgpt ∨ c.preferredProvider = LLMProvider.«local» then c
  else
    let localAvailable := if c.llmInit then env.localAvail else false
    let chatgptAvailable := if c.chatgptInit then c.chatgptKeySet else false
    { c with currentProvider :=
        if localAvailable = true then LLMProvider.«local»
        else if chatgptAvailable = true then LLMProvider.chatgpt
        else LLMProvider.dummy }

/-! ## `src/services/rag.go`: per-channel Discord message buffer -/

/-- `RAGService.AddDiscordMessage`, per-channel buffer step (rag.go lines
250-256): prepend the new message, then keep only the first 10. -/
def AddDiscordMessage (buf : List DiscordMessage) (msg : DiscordMessage) : List DiscordMessage :=
  let b := msg :: buf
  if 10 < b.length then b.take 10 else b

/-- `RAGService.AddDiscordMessage` at the map level (rag.go lines 241-257):
only the addressed channel's buffer changes.  A missing key is the empty
buffer (Go nil slice). -/
def ragAddDiscordMessage (m : Str → List DiscordMessage) (channelID : Str)
    (msg : DiscordMessage) : Str → List DiscordMessage :=
  fun ch => if ch = channelID then AddDiscordMessage (m channelID) msg else m ch

/-- Folding a sequence of `(channel, message)` inserts over the initially
empty message map. -/
def runInserts (inserts : List (Str × DiscordMessage)) : Str → List DiscordMessage :=
  inserts.foldl (fun m i => ragAddDiscordMessage m i.1 i.2) (fun _ => [])

/-- The messages inserted for one channel, in insertion order. -/
def msgsFor (ch : Str) (inserts : List (Str × DiscordMessage)) : List DiscordMessage :=
  (inserts.filter (fun i => i.1 = ch)).map Prod.snd

/-- Effective message-time availability of a provider, as the refresh
operations compute it: a service counts as available only when it was
initialized and its availability check succeeds (`dummy` is never probed). -/
def availEff (c : Chatbot) (env : Env) : LLMProvider → Bool
  | LLMProvider.«local» => c.llmInit && env.localAvail
  | LLMProvider.chatgpt => c.chatgptInit && c.chatgptKeySet
  | LLMProvider.dummy => false

/-! ## Concrete states used to instantiate and refute the claims -/

/-- An all-false availability cache. -/
def cacheAllFalse : LLMProvider → Bool := fun _ => false

/-- Auto-detect mode chatbot currently on the local provider, both services
initialized (chatbot.go lines 89-115 with both probes up at startup). -/
def autoLocalBot : Chatbot :=
  { initialized := true, llmInit := true, chatgptInit := true, chatgptKeySet := true
    currentProvider := LLMProvider.«local», preferredProvider := LLMProvider.dummy
    providerCheckCache := cacheAllFalse, enableRAG := false }

/-- Auto-detect mode chatbot currently on the ChatGPT provider (the state
after the local service went down and `refreshProviderStatus` switched). -/
def autoChatgptBot : Chatbot :=
  { initialized := true, llmInit := true, chatgptInit := true, chatgptKeySet := true
    currentProvider := LLMProvider.chatgpt, preferredProvider := LLMProvider.dummy
    providerCheckCache := cacheAllFalse, enableRAG := false }

/-- Forced ChatGPT-only mode chatbot (chatbot.go lines 48-67). -/
def forcedChatgptBot : Chatbot :=
  { initialized := true, llmInit := false, chatgptInit := true, chatgptKeySet := true
    currentProvider := LLMProvider.chatgpt, preferredProvider := LLMProvider.chatgpt
    providerCheckCache := cacheAllFalse, enableRAG := false }

/-- Environment: local generate call fails, ChatGPT generate call succeeds. -/
def envLocalFailChatgptOk : Env :=
  { localGenRaw := none, chatgptGen := some ("hi there".toList), localAvail := false
    ragDocs := none, randGreet := 0, randCtxEmpty := true, randCtxNum := 0
    randSrcEmpty := true, randSrcNum := 0 }

/-- Environment: both real generate calls fail. -/
def envBothFail : Env :=
  { localGenRaw := none, chatgptGen := none, localAvail := false
    ragDocs := none, randGreet := 0, randCtxEmpty := true, randCtxNum := 0
    randSrcEmpty := true, randSrcNum := 0 }

/-- Environment: the local backend succeeds with a payload that the output
cleanup reduces to the empty string. -/
def envLocalDegenerate : Env :=
  { localGenRaw := some ['.'], chatgptGen := none, localAvail := true
    ragDocs := none, randGreet := 0, randCtxEmpty := true, randCtxNum := 0
    randSrcEmpty := true, randSrcNum := 0 }

/-- Environment: the local availability probe succeeds. -/
def envLocalUp : Env :=
  { localGenRaw := none, chatgptGen := none, localAvail := true
    ragDocs := none, randGreet := 0, randCtxEmpty := true, randCtxNum := 0
    randSrcEmpty := true, randSrcNum := 0 }

/-- Environment with greeting draw 0. -/
def envGreet0 : Env :=
  { localGenRaw := none, chatgptGen := none, localAvail := false
    ragDocs := none, randGreet := 0, randCtxEmpty := true, randCtxNum := 0
    randSrcEmpty := true, randSrcNum := 0 }

/-- Environment with greeting draw 1, otherwise as `envGreet0`. -/
def envGreet1 : Env :=
  { localGenRaw := none, chatgptGen := none, localAvail := false
    ragDocs := none, randGreet := 1, randCtxEmpty := true, randCtxNum := 0
    randSrcEmpty := true, randSrcNum := 0 }

/-- A sample Discord message. -/
def exDiscordMsg : DiscordMessage :=
  { id := [], channelID := "c".toList, content := "m".toList, author := "a".toList, isBot := false }

/-- Eleven consecutive inserts of `exDiscordMsg` into channel "c". -/
def exInserts : List (Str × DiscordMessage) := List.replicate 11 ("c".toList, exDiscordMsg)

/-! ## Helper lemmas about the string primitives -/

theorem dropWhile_idem (p : Char → Bool) (l : Str) :
    List.dropWhile p (List.dropWhile p l) = List.dropWhile p l := by
  induction l with
  | nil => simp
  | cons a t ih =>
    by_cases hp : p a <;> simp [List.dropWhile_cons, hp, ih]

theorem trimRightP_pre (p : Char → Bool) (s : Str) : trimRightP p s <+: s := by
  have h := List.reverse_prefix.mpr (List.dropWhile_suffix (l := s.reverse) p)
  rwa [List.reverse_reverse] at h

theorem trimLeftP_suf (p : Char → Bool) (s : Str) : trimLeftP p s <:+ s :=
  List.dropWhile_suffix p

theorem trimSpace_isInfix (s : Str) : trimSpace s <:+: s :=
  List.IsInfix.trans (List.IsPrefix.isInfix (trimRightP_pre _ _))
    (List.IsSuffix.isInfix (trimLeftP_suf _ _))

theorem trimRightP_idem (p : Char → Bool) (s : Str) :
    trimRightP p (trimRightP p s) = trimRightP p s := by
  unfold trimRightP
  rw [List.reverse_reverse, dropWhile_idem]

theorem head?_trimRightP (p : Char → Bool) (s : Str) (h : trimRightP p s ≠ []) :
    (trimRightP p s).head? = s.head? := by
  obtain ⟨t, ht⟩ := trimRightP_pre p s
  conv_rhs => rw [← ht]
  exact (List.head?_append_of_ne_nil _ h).symm

theorem trimLeftP_head (p : Char → Bool) (s : Str) (a : Char)
    (h : (trimLeftP p s).head? = some a) : p a = false := by
  induction s with
  | nil => simp [trimLeftP] at h
  | cons b t ih =>
    by_cases hp : p b
    · exact ih (by simpa [trimLeftP, List.dropWhile_cons, hp] using h)
    · simp [trimLeftP, List.dropWhile_cons, hp] at h
      subst h
      simpa using hp

theorem trimLeftP_eq_self (p : Char → Bool) (s : Str)
    (h : ∀ a, s.head? = some a → p a = false) : trimLeftP p s = s := by
  cases s with
  | nil => rfl
  | cons a t =>
    have := h a rfl
    simp [trimLeftP, List.dropWhile_cons, this]

theorem trimSpace_idem (s : Str) : trimSpace (trimSpace s) = trimSpace s := by
  unfold trimSpace
  have hleft : trimLeftP goIsSpace (trimRightP goIsSpace (trimLeftP goIsSpace s))
      = trimRightP goIsSpace (trimLeftP goIsSpace s) := by
    apply trimLeftP_eq_self
    intro a ha
    by_cases hnil : trimRightP goIsSpace (trimLeftP goIsSpace s) = []
    · rw [hnil] at ha; simp at ha
    · rw [head?_trimRightP _ _ hnil] at ha
      exact trimLeftP_head _ _ _ ha
  rw [hleft, trimRightP_idem]

theorem trimRightP_eq_self (p : Char → Bool) (s : Str)
    (h : ∀ a, s.getLast? = some a → p a = false) : trimRightP p s = s := by
  cases hr : s.reverse with
  | nil =>
    have : s = [] := by simpa using congrArg List.reverse hr
    simp [trimRightP, this]
  | cons a t =>
    have ha : s.getLast? = some a := by
      rw [← List.head?_reverse, hr]; rfl
    have hp := h a ha
    have : trimRightP p s = (a :: t).reverse := by
      simp [trimRightP, hr, List.dropWhile_cons, hp]
    rw [this, ← hr, List.reverse_reverse]

theorem findSub_some_isInfix (pat : Str) (s : Str) (i : Nat)
    (h : findSub pat s = some i) : pat <:+: s := by
  induction s generalizing i with
  | nil =>
    unfold findSub at h
    split at h
    · next hpat => subst hpat; exact List.infix_rfl
    · exact absurd h (by simp)
  | cons c t ih =>
    unfold findSub at h
    split at h
    · next hp => exact List.IsPrefix.isInfix (List.isPrefixOf_iff_prefix.mp hp)
    · next hp =>
      cases hft : findSub pat t with
      | none => rw [hft] at h; simp at h
      | some j =>
        exact List.IsInfix.trans (ih j hft) (List.IsSuffix.isInfix (List.suffix_cons c t))

theorem findSub_none_of_not_isInfix (pat : Str) (s : Str) (h : ¬ pat <:+: s) :
    findSub pat s = none := by
  cases hf : findSub pat s with
  | none => rfl
  | some i => exact absurd (findSub_some_isInfix pat s i hf) h

theorem cutPattern_pre (s pat : Str) : cutPattern s pat <+: s := by
  unfold cutPattern
  split
  · exact List.take_prefix _ _
  · exact List.prefix_rfl

theorem not_isInfix_cutPattern (pat : Str) (hne : pat ≠ []) (s : Str) :
    ¬ pat <:+: cutPattern s pat := by
  induction s with
  | nil =>
    intro h
    exact hne (List.eq_nil_of_infix_nil (by simpa [cutPattern, findSub, hne] using h))
  | cons c t ih =>
    by_cases hp : pat.isPrefixOf (c :: t)
    · intro h
      have : cutPattern (c :: t) pat = [] := by simp [cutPattern, findSub, hp]
      rw [this] at h
      exact hne (List.eq_nil_of_infix_nil h)
    · cases hft : findSub pat t with
      | none =>
        have hcut : cutPattern (c :: t) pat = c :: t := by
          simp [cutPattern, findSub, hp, hft]
        rw [hcut]
        intro h
        rcases List.infix_cons_iff.mp h with hpre | hinf
        · exact hp (List.isPrefixOf_iff_prefix.mpr hpre)
        · have htail := ih
          rw [show cutPattern t pat = t by simp [cutPattern, hft]] at htail
          exact htail hinf
      | some j =>
        have hcut : cutPattern (c :: t) pat = c :: t.take j := by
          simp [cutPattern, findSub, hp, hft]
        rw [hcut]
        intro h
        rcases List.infix_cons_iff.mp h with hpre | hinf
        · have : pat <+: c :: t :=
            hpre.trans (List.cons_prefix_cons.mpr ⟨rfl, List.take_prefix _ _⟩)
          exact hp (List.isPrefixOf_iff_prefix.mpr this)
        · have htail := ih
          rw [show cutPattern t pat = t.take j by simp [cutPattern, hft]] at htail
          exact htail hinf

theorem foldl_cutPattern_pre (ps : List Str) (s : Str) :
    ps.foldl cutPattern s <+: s := by
  induction ps generalizing s with
  | nil => exact List.prefix_rfl
  | cons p ps ih =>
    rw [List.foldl_cons]
    exact (ih (cutPattern s p)).trans (cutPattern_pre s p)

theorem not_isInfix_of_pre {p u v : Str} (huv : u <+: v) (h : ¬ p <:+: v) : ¬ p <:+: u :=
  fun hx => h (List.IsInfix.trans hx (List.IsPrefix.isInfix huv))

theorem foldl_cutPattern_not_isInfix (ps : List Str) (p : Str) (hmem : p ∈ ps)
    (hne : p ≠ []) (s : Str) : ¬ p <:+: ps.foldl cutPattern s := by
  induction ps generalizing s with
  | nil => cases hmem
  | cons q ps ih =>
    rw [List.foldl_cons]
    rcases List.mem_cons.mp hmem with rfl | hmem'
    · exact not_isInfix_of_pre (foldl_cutPattern_pre ps _) (not_isInfix_cutPattern p hne s)
    · exact ih hmem' _

theorem foldl_cutPattern_eq_self (ps : List Str) (s : Str)
    (h : ∀ p ∈ ps, findSub p s = none) : ps.foldl cutPattern s = s := by
  induction ps with
  | nil => rfl
  | cons p ps ih =>
    rw [List.foldl_cons]
    have hcut : cutPattern s p = s := by
      unfold cutPattern
      rw [h p (List.mem_cons_self p ps)]
    rw [hcut]
    exact ih (fun q hq => h q (List.mem_cons_of_mem p hq))

/-! ## Ring buffer lemmas -/

theorem AddDiscordMessage_take (rev : List DiscordMessage) (b : DiscordMessage) :
    AddDiscordMessage (rev.take 10) b = (b :: rev).take 10 := by
  unfold AddDiscordMessage
  by_cases hlen : 10 ≤ rev.length
  · have h1 : (rev.take 10).length = 10 := by
      simp [List.length_take]
      omega
    rw [if_pos (by simp [h1])]
    rw [show (10 : Nat) = 9 + 1 from rfl, List.take_succ_cons, List.take_succ_cons,
      List.take_take]
    norm_num
  · have h2 : rev.take 10 = rev := List.take_of_length_le (by omega)
    rw [h2, if_neg (by simp; omega)]
    rw [show (10 : Nat) = 9 + 1 from rfl, List.take_succ_cons,
      List.take_of_length_le (by omega)]

theorem runInserts_eq (inserts : List (Str × DiscordMessage)) (ch : Str) :
    runInserts inserts ch = ((msgsFor ch inserts).reverse).take 10 := by
  induction inserts using List.reverseRecOn with
  | nil => rfl
  | append_singleton l i ih =>
    have hstep : runInserts (l ++ [i]) = ragAddDiscordMessage (runInserts l) i.1 i.2 := by
      unfold runInserts
      rw [List.foldl_append]
      rfl
    have hmsgs : msgsFor ch (l ++ [i])
        = msgsFor ch l ++ (if i.1 = ch then [i.2] else []) := by
      unfold msgsFor
      rw [List.filter_append, List.map_append]
      congr 1
      by_cases hi : i.1 = ch <;> simp [List.filter, hi]
    rw [hstep, hmsgs]
    unfold ragAddDiscordMessage
    by_cases hch : ch = i.1
    · subst hch
      rw [if_pos rfl, if_pos rfl, ih, AddDiscordMessage_take]
      simp
    · rw [if_neg hch, if_neg (fun h => hch h.symm), ih]
      simp

/-! ## Claim theorems -/

/-- Claim C7: the per-channel ring buffer of recent Discord messages always
has length at most 10, and after inserting more than 10 messages for a
channel exactly the 10 most recently inserted remain, newest first (the
newest insert evicts the oldest entry). -/
theorem AddDiscordMessage_ring_buffer (inserts : List (Str × DiscordMessage)) (ch : Str) :
    (runInserts inserts ch).length ≤ 10 ∧
    (10 < (msgsFor ch inserts).length →
      runInserts inserts ch = ((msgsFor ch inserts).reverse).take 10 ∧
      (runInserts inserts ch).length = 10) := by
  constructor
  · rw [runInserts_eq]
    simp [List.length_take]
  · intro hN
    refine ⟨runInserts_eq inserts ch, ?_⟩
    rw [runInserts_eq]
    simp [List.length_take]
    omega

/-- Witness for C7 at eleven concrete inserts into one channel. -/
theorem AddDiscordMessage_ring_buffer_witness :
    10 < (msgsFor ("c".toList) exInserts).length ∧
    (runInserts exInserts ("c".toList)).length = 10 :=
  ⟨by decide, ((AddDiscordMessage_ring_buffer exInserts ("c".toList)).2 (by decide)).2⟩

/-- Claim C9: `ProcessMessage` never mutates the provider state: the fields
`currentProvider`, `preferredProvider` and the availability cache are the
same after the call as before it (the source body only reads the receiver;
provider state is written only by construction and the refresh operations). -/
theorem ProcessMessage_preserves_provider_state (c : Chatbot) (env : Env)
    (message sessionID : Str) (history : List ChatMessage) :
    (ProcessMessage c env message sessionID history).2.currentProvider = c.currentProvider ∧
    (ProcessMessage c env message sessionID history).2.preferredProvider = c.preferredProvider ∧
    (ProcessMessage c env message sessionID history).2.providerCheckCache = c.providerCheckCache :=
  ⟨rfl, rfl, rfl⟩

/-- Claim C10: the `sources` field of every `ChatResponse` returned by
`ProcessMessage` is a prefix of length at most 2 of the fixed placeholder
list `dummySources`, for every message, session id, history and environment
(in particular it never depends on the documents the RAG oracle returned). -/
theorem ProcessMessage_sources_placeholder (c : Chatbot) (env : Env)
    (message sessionID : Str) (history : List ChatMessage) :
    (ProcessMessage c env message sessionID history).1.sources <+: dummySources ∧
    (ProcessMessage c env message sessionID history).1.sources.length ≤ 2 := by
  have hsrc : (ProcessMessage c env message sessionID history).1.sources
      = generateDummySources env := rfl
  rw [hsrc]
  unfold generateDummySources
  by_cases he : env.randSrcEmpty
  · simp [he]
  · rcases env.randSrcNum with ⟨v, hv⟩
    have hclamp : (if dummySources.length < v + 1 then dummySources.length else v + 1)
        = v + 1 := by
      rw [if_neg]
      simp [dummySources]
      omega
    simp only [he, if_false, Bool.false_eq_true]
    rw [hclamp]
    exact ⟨List.take_prefix _ _, by simp [List.length_take]; omega⟩

/-- Claim C3: in forced ChatGPT mode, when the ChatGPT generate call fails at
message time, `generateResponse` returns the dummy response with provider
`dummy` — it never invokes the local backend (the result is independent of
`localGenRaw`, which the statement quantifies over through `env`). -/
theorem generateResponse_forced_chatgpt_dummy (c : Chatbot) (env : Env)
    (message : Str) (context : List Str) (history : List ChatMessage)
    (hpref : c.preferredProvider = LLMProvider.chatgpt)
    (hcur : c.currentProvider ≠ LLMProvider.«local»)
    (hfail : env.chatgptGen = none) :
    generateResponse c env message context history
      = (generateDummyResponse c env message history.length, LLMProvider.dummy) := by
  have hg : chatgptGenerate c env = none := by
    unfold chatgptGenerate
    rw [hfail]
    split <;> rfl
  unfold generateResponse
  cases hc : c.currentProvider with
  | «local» => exact absurd hc hcur
  | chatgpt =>
    by_cases hinit : c.chatgptInit = false
    · rw [if_pos hinit]
    · rw [if_neg hinit, hg, hpref]
      simp
  | dummy => rfl

/-- Witness for C3: concrete forced-ChatGPT chatbot with a failing hosted call. -/
theorem generateResponse_forced_chatgpt_dummy_witness :
    (generateResponse forcedChatgptBot envBothFail ("x".toList) [] []).2
      = LLMProvider.dummy := by
  rw [generateResponse_forced_chatgpt_dummy forcedChatgptBot envBothFail
    ("x".toList) [] [] rfl (by decide) rfl]

/-- Counterexample to claim C2: in auto mode with the local backend's generate
call failing and the hosted one succeeding, the used provider is `dummy`, not
`chatgpt` as the claim states — the code never attempts the other real backend
at message time (chatbot.go line 216, "Fast fallback to dummy"). -/
theorem generateResponse_auto_no_crossover_example :
    (generateResponse autoLocalBot envLocalFailChatgptOk ("x".toList) [] []).2
        = LLMProvider.dummy ∧
    (generateResponse autoLocalBot envLocalFailChatgptOk ("x".toList) [] []).2
        ≠ LLMProvider.chatgpt := by
  constructor
  · rfl
  · intro h
    exact absurd ((rfl :
      (generateResponse autoLocalBot envLocalFailChatgptOk ("x".toList) [] []).2
        = LLMProvider.dummy) ▸ h) (by decide)

/-- Claim C2 (amended): in auto mode, when the currently selected local
backend's generate call fails at message time, `generateResponse` falls back
directly to the dummy generator — it does not attempt the other real backend,
so the used provider is `dummy` for every hosted-backend outcome. -/
theorem generateResponse_auto_local_fail_dummy (c : Chatbot) (env : Env)
    (message : Str) (context : List Str) (history : List ChatMessage)
    (hauto1 : c.preferredProvider ≠ LLMProvider.«local»)
    (hauto2 : c.preferredProvider ≠ LLMProvider.chatgpt)
    (hcur : c.currentProvider = LLMProvider.«local»)
    (hfail : env.localGenRaw = none) :
    generateResponse c env message context history
      = (generateDummyResponse c env message history.length, LLMProvider.dummy) := by
  have hg : llmGenerate env = none := by
    unfold llmGenerate
    rw [hfail]
    rfl
  unfold generateResponse
  rw [hcur]
  by_cases hinit : c.llmInit = false
  · rw [if_pos hinit]
  · rw [if_neg hinit, hg, if_neg (fun h => hauto1 h)]

/-- Witness for the amended C2 at a concrete auto-mode state. -/
theorem generateResponse_auto_local_fail_dummy_witness :
    (generateResponse autoLocalBot envLocalFailChatgptOk ("y".toList) [] []).2
      = LLMProvider.dummy := by
  rw [generateResponse_auto_local_fail_dummy autoLocalBot envLocalFailChatgptOk
    ("y".toList) [] [] (by decide) (by decide) rfl rfl]

/-- Counterexample to claim C8: in auto mode `RefreshProviders` (the explicit
refresh operation, chatbot.go lines 563-591) re-evaluates from scratch
preferring local, so it switches `currentProvider` away from ChatGPT even
though ChatGPT is still available. -/
theorem RefreshProviders_switches_from_available_example :
    autoChatgptBot.currentProvider = LLMProvider.chatgpt ∧
    availEff autoChatgptBot envLocalUp LLMProvider.chatgpt = true ∧
    (RefreshProviders autoChatgptBot envLocalUp).currentProvider = LLMProvider.«local» := by
  refine ⟨rfl, rfl, ?_⟩
  rfl

/-- Claim C8 (amended): both refresh operations are no-ops in forced mode; in
auto mode `refreshProviderStatus` changes `currentProvider` only when the
active provider is unavailable and the provider it switches to is available
(so it never switches away from a still-available provider), while
`RefreshProviders` may re-prefer local even when ChatGPT is still up. -/
theorem refresh_forced_noop_and_hysteresis (c : Chatbot) (env : Env) :
    ((c.preferredProvider = LLMProvider.chatgpt ∨ c.preferredProvider = LLMProvider.«local») →
      refreshProviderStatus c env = c ∧ RefreshProviders c env = c) ∧
    ((refreshProviderStatus c env).currentProvider ≠ c.currentProvider →
      availEff c env c.currentProvider = false ∧
      availEff c env (refreshProviderStatus c env).currentProvider = true) := by
  constructor
  · intro hforced
    constructor
    · unfold refreshProviderStatus
      rw [if_pos hforced]
    · unfold RefreshProviders
      rw [if_pos hforced]
  · intro hchange
    by_cases hforced : c.preferredProvider = LLMProvider.chatgpt ∨
        c.preferredProvider = LLMProvider.«local»
    · exfalso
      apply hchange
      unfold refreshProviderStatus
      rw [if_pos hforced]
    · have hcurrent : (refreshProviderStatus c env).currentProvider
          = refreshedCurrent c (if c.llmInit then env.localAvail else false)
              (if c.chatgptInit then c.chatgptKeySet else false) := by
        unfold refreshProviderStatus
        rw [if_neg hforced]
      have hla : availEff c env LLMProvider.«local»
          = (if c.llmInit then env.localAvail else false) := by
        by_cases hi : c.llmInit = true <;> simp [availEff, hi]
      have hca : availEff c env LLMProvider.chatgpt
          = (if c.chatgptInit then c.chatgptKeySet else false) := by
        by_cases hi : c.chatgptInit = true <;> simp [availEff, hi]
      rw [hcurrent] at hchange ⊢
      rw [← hla, ← hca] at hchange ⊢
      unfold refreshedCurrent at hchange ⊢
      split_ifs at hchange ⊢ with h1 h2
      · obtain ⟨hc, hl, hg⟩ := h1
        rw [hc]
        exact ⟨hl, hg⟩
      · obtain ⟨hc, hg, hl⟩ := h2
        rw [hc]
        exact ⟨hg, hl⟩
      · exact absurd rfl hchange

/-- Witness for the amended C8: a forced-mode no-op and a concrete auto-mode
switch from a down local provider to an available ChatGPT. -/
theorem refresh_forced_noop_and_hysteresis_witness :
    refreshProviderStatus forcedChatgptBot envBothFail = forcedChatgptBot ∧
    availEff autoLocalBot envBothFail LLMProvider.«local» = false ∧
    availEff autoLocalBot envBothFail
      (refreshProviderStatus autoLocalBot envBothFail).currentProvider = true :=
  ⟨((refresh_forced_noop_and_hysteresis forcedChatgptBot envBothFail).1 (Or.inl rfl)).1,
   (refresh_forced_noop_and_hysteresis autoLocalBot envBothFail).2 (by decide)⟩

/-! ## Dummy-response lemmas -/

theorem generateDummyResponse_ne_nil (c : Chatbot) (env : Env) (message : Str)
    (n : Nat) : generateDummyResponse c env message n ≠ [] := by
  have hgreet : ∀ i : Fin 3, greetings.get ⟨i.val, i.isLt⟩ ≠ [] := by decide
  unfold generateDummyResponse
  dsimp only
  repeat' split
  all_goals first
    | exact hgreet env.randGreet
    | exact fun h => List.noConfusion (congrArg (List.take 1) h)
    | decide

/-- Claim C6 (amended): the dummy generator always returns non-empty text;
away from the greeting branch its reply is a deterministic function of the
message and the chatbot state — but it ignores the history position, and on
greeting messages it picks one of three templates by a random draw. -/
theorem generateDummyResponse_nonempty_det (c : Chatbot) (env₁ env₂ : Env)
    (message : Str) (n₁ n₂ : Nat) :
    generateDummyResponse c env₁ message n₁ ≠ [] ∧
    (isGreetingMsg (toLowerStr message) = false →
      generateDummyResponse c env₁ message n₁ = generateDummyResponse c env₂ message n₂) := by
  refine ⟨generateDummyResponse_ne_nil c env₁ message n₁, ?_⟩
  intro hng
  simp only [generateDummyResponse, hng, Bool.false_eq_true, if_false]

/-- Witness for the amended C6 at a concrete non-greeting message. -/
theorem generateDummyResponse_nonempty_det_witness :
    generateDummyResponse autoLocalBot envGreet0 ("status".toList) 0 ≠ [] ∧
    generateDummyResponse autoLocalBot envGreet0 ("status".toList) 0
      = generateDummyResponse autoLocalBot envGreet1 ("status".toList) 5 :=
  ⟨(generateDummyResponse_nonempty_det autoLocalBot envGreet0 envGreet1
      ("status".toList) 0 5).1,
   (generateDummyResponse_nonempty_det autoLocalBot envGreet0 envGreet1
      ("status".toList) 0 5).2 (by decide)⟩

/-- Counterexample to claim C6: with the same message ("hello") and the same
history position (3), two different random draws give two different replies,
so the dummy generator is not a deterministic function of message text and
conversation position. -/
theorem generateDummyResponse_random_greeting_example :
    generateDummyResponse autoLocalBot envGreet0 ("hello".toList) 3
      ≠ generateDummyResponse autoLocalBot envGreet1 ("hello".toList) 3 := by
  decide

/-! ## Fallback non-emptiness -/

theorem generateResponse_fst_ne_nil_of_fail (c : Chatbot) (env : Env)
    (message : Str) (context : List Str) (history : List ChatMessage)
    (h1 : env.localGenRaw = none) (h2 : env.chatgptGen = none) :
    (generateResponse c env message context history).1 ≠ [] := by
  have hl : llmGenerate env = none := by
    unfold llmGenerate
    rw [h1]
    rfl
  have hc : chatgptGenerate c env = none := by
    unfold chatgptGenerate
    rw [h2]
    split <;> rfl
  unfold generateResponse
  cases c.currentProvider <;> simp only [hl, hc] <;> repeat' split
  all_goals exact generateDummyResponse_ne_nil c env message history.length

/-- Claim C1 (amended): `ProcessMessage` always returns a `ChatResponse` with
status "success" (backend errors are never surfaced), and whenever both real
backends fail — so the dummy fallback answers — the message text is
non-empty.  (When a backend succeeds with a payload whose cleanup is empty,
the message can be empty; see the counterexample.) -/
theorem ProcessMessage_success_and_fallback_nonempty (c : Chatbot) (env : Env)
    (message sessionID : Str) (history : List ChatMessage) :
    (ProcessMessage c env message sessionID history).1.status = "success".toList ∧
    (env.localGenRaw = none → env.chatgptGen = none →
      (ProcessMessage c env message sessionID history).1.message ≠ []) := by
  constructor
  · rfl
  · intro h1 h2
    exact generateResponse_fst_ne_nil_of_fail c env (trimSpace message)
      (generateContextWithHistory c env (trimSpace message) sessionID history)
      history h1 h2

/-- Witness for the amended C1 with both backends failing. -/
theorem ProcessMessage_success_and_fallback_nonempty_witness :
    (ProcessMessage autoLocalBot envBothFail ("x".toList) ("s".toList) []).1.status
      = "success".toList ∧
    (ProcessMessage autoLocalBot envBothFail ("x".toList) ("s".toList) []).1.message ≠ [] :=
  ⟨(ProcessMessage_success_and_fallback_nonempty autoLocalBot envBothFail
      ("x".toList) ("s".toList) []).1,
   (ProcessMessage_success_and_fallback_nonempty autoLocalBot envBothFail
      ("x".toList) ("s".toList) []).2 rfl rfl⟩

/-- Counterexample to claim C1: when the selected local backend succeeds with
the degenerate payload ".", the cleanup reduces it to the empty string and
`ProcessMessage` returns an empty message (status still "success"), so the
message field is not always non-empty. -/
theorem ProcessMessage_empty_message_example :
    (ProcessMessage autoLocalBot envLocalDegenerate ("x".toList) ("s".toList) []).1.message
      = [] ∧
    (ProcessMessage autoLocalBot envLocalDegenerate ("x".toList) ("s".toList) []).1.status
      = "success".toList := by
  exact ⟨rfl, rfl⟩

/-! ## Length cap and idempotence of the output cleanup -/

/-- Counterexample to claim C5: a cleaned-up response can exceed the
300-character budget — with more than two ". "-separated segments the code
keeps the first two sentences even when they are longer than the budget
(llm.go lines 141-143). -/
theorem cleanResponse_exceeds_budget_example :
    300 < (cleanResponse (List.replicate 301 'a' ++ ". b. c".toList)).length := by
  decide

/-- Claim C5 (amended): when the intermediate result is longer than the
300-character budget and has at most two ". "-separated segments, the output
is the hard truncation of exactly 300 characters (297 plus an ellipsis); the
sentence-boundary branch taken when there are more than two segments keeps
the first two sentences and is not guaranteed to fit the budget. -/
theorem cleanResponse_hard_truncate_length (s : Str)
    (h1 : 300 < (cleanMid s).length)
    (h2 : (splitDotSpace (cleanMid s)).length ≤ 2) :
    (cleanResponse s).length = 300 := by
  unfold cleanResponse
  dsimp only
  rw [if_pos h1, if_neg (by omega)]
  simp [List.length_append, List.length_take]
  omega

/-- Witness for the amended C5 on a 301-character single-sentence input. -/
theorem cleanResponse_hard_truncate_length_witness :
    300 < (cleanMid (List.replicate 301 'a')).length ∧
    (cleanResponse (List.replicate 301 'a')).length = 300 :=
  ⟨by decide, cleanResponse_hard_truncate_length (List.replicate 301 'a')
      (by decide) (by decide)⟩

theorem cleanResponse_cap_getLast (s : Str) (h : 300 < (cleanMid s).length) :
    (cleanResponse s).getLast? = some '.' := by
  unfold cleanResponse
  dsimp only
  rw [if_pos h]
  split
  · exact List.getLast?_concat _
  · rw [show ('.' :: '.' :: '.' :: [] : Str) = ['.', '.'] ++ ['.'] from rfl,
      ← List.append_assoc]
    exact List.getLast?_concat _

/-- Counterexample to claim C4: cleanup is not idempotent.  On this input the
stop-pattern cut leaves a trailing " ." that the first pass trims to "abc .",
and a second pass strips the now-trailing period, giving "abc". -/
theorem cleanResponse_not_idempotent_example :
    cleanResponse (cleanResponse ("abc . \nHuman: hi".toList))
      ≠ cleanResponse ("abc . \nHuman: hi".toList) := by
  decide

/-- Claim C4 (amended): output cleanup is idempotent on every input whose
cleaned form does not end in one of the punctuation characters ".,!?;:"; when
it does end in one (in particular whenever the length cap fired, since both
cap branches append a period), a second application strips that trailing
punctuation, so cleanup is not idempotent in general. -/
theorem cleanResponse_idem_of_getLast (s : Str)
    (h : ∀ a, (cleanResponse s).getLast? = some a → punctCutset.contains a = false) :
    cleanResponse (cleanResponse s) = cleanResponse s := by
  by_cases hcap : 300 < (cleanMid s).length
  · exact absurd (h '.' (cleanResponse_cap_getLast s hcap)) (by decide)
  · have hs : cleanResponse s = cleanMid s := by
      unfold cleanResponse
      dsimp only
      rw [if_neg hcap]
    rw [hs] at h ⊢
    have htrim : trimSpace (cleanMid s) = cleanMid s := by
      unfold cleanMid
      exact trimSpace_idem _
    have hpat : ∀ p ∈ stopPatterns, ¬ p <:+: cleanMid s := by
      intro p hp
      have hinf : cleanMid s <:+: stopPatterns.foldl cutPattern (trimSpace s) := by
        unfold cleanMid
        exact List.IsInfix.trans (trimSpace_isInfix _)
          (List.IsPrefix.isInfix (trimRightP_pre _ _))
      have hne : p ≠ [] := (by decide : ∀ q ∈ stopPatterns, q ≠ []) p hp
      exact fun hx => foldl_cutPattern_not_isInfix stopPatterns p hp hne (trimSpace s)
        (List.IsInfix.trans hx hinf)
    have hfold : stopPatterns.foldl cutPattern (cleanMid s) = cleanMid s :=
      foldl_cutPattern_eq_self _ _
        (fun p hp => findSub_none_of_not_isInfix p _ (hpat p hp))
    have hpunct : trimRightCutset punctCutset (cleanMid s) = cleanMid s := by
      unfold trimRightCutset
      exact trimRightP_eq_self _ _ h
    have hmid : cleanMid (cleanMid s) = cleanMid s := by
      conv_lhs => rw [cleanMid]
      rw [htrim, hfold, hpunct, htrim]
    unfold cleanResponse
    dsimp only
    rw [hmid, if_neg hcap]

/-- Witness for the amended C4 on an input whose cleaned form ends in a
non-punctuation character. -/
theorem cleanResponse_idem_of_getLast_witness :
    cleanResponse (cleanResponse ("Hello world".toList))
      = cleanResponse ("Hello world".toList) := by
  apply cleanResponse_idem_of_getLast
  intro a ha
  rw [show (cleanResponse ("Hello world".toList)).getLast? = some 'd' from by decide] at ha
  cases ha
  decide

/-! ## Sanity checks of the embedding on concrete inputs -/

example : cleanResponse ("  Hello there!  ".toList) = "Hello there".toList := by decide
example : cleanResponse ("A.\n\nHuman: hi".toList) = "A".toList := by decide
example : splitDotSpace ("a. b. c".toList) = ["a".toList, "b".toList, "c".toList] := by decide
example : splitDotSpace ("a. . b".toList) = ["a".toList, [], "b".toList] := by decide
example : cleanResponse (List.replicate 301 'a') = List.replicate 297 'a' ++ "...".toList := by decide
